import Mathlib

/-!
Shallow embedding of the mosn wasm plugin layer:
the instance pool (`wasmPluginImpl` in pkg/wasm/plugin.go), the plugin
wrapper and manager (`pluginWrapper`, `wasmMangerImpl`), and the
proxy-wasm ABI dispatcher (`wasmContext`).  External collaborators
(engine lookup, byte loading, module and instance creation) are modelled
as oracle fields of `WasmEnv`; Go pointer identity of plugins is
modelled by a `pid` surrogate; the Go `int32` round-robin cursor is
modelled as an `Int` kept in two's-complement range by `wrap32`, and the
Go truncated `%` is `Int.tmod`.
-/

namespace MosnWasm

/-- Wasm VM configuration, mirroring `v2.WasmVmConfig`. -/
structure WasmVmConfig where
  Engine : String
  Path : String
  Url : String
  Cpu : Int
  Mem : Int
  deriving DecidableEq, Repr

/-- Wasm plugin configuration, mirroring `v2.WasmPluginConfig`.
`VmConfig` is a pointer in Go, hence an `Option` here. -/
structure WasmPluginConfig where
  PluginName : String
  VmConfig : Option WasmVmConfig
  InstanceNum : Int
  deriving DecidableEq, Repr

/-- A pooled wasm instance (`wasmInstanceWrapperImpl`); `id` is the value
of the module instantiation counter when the instance was created. -/
structure WasmInstanceWrapper where
  id : Nat
  deriving DecidableEq, Repr

instance : Inhabited WasmInstanceWrapper := ⟨⟨0⟩⟩

/-- Oracles for the external collaborators: `runtime.NumCPU`,
`GetWasmEngine`, `loadWasmBytesFromPath` / `loadWasmBytesFromUrl` (an
empty list models a nil or empty byte slice), `vm.NewModule` success and
`module.NewInstance` failure (indexed by a global creation-attempt
counter, since instance creation is an external, stateful operation that
may fail transiently). -/
structure WasmEnv where
  numCPU : Int
  engineFound : String → Bool
  loadWasmBytesFromPath : String → List Nat
  loadWasmBytesFromUrl : String → List Nat
  newModuleOk : String → List Nat → Bool
  createFail : Nat → Bool

/-- Two's-complement wrap of an integer into the `int32` range, the
semantics of Go `int32` overflow. -/
def wrap32 (x : Int) : Int := (x + 2 ^ 31) % 2 ^ 32 - 2 ^ 31

/-- State of `wasmPluginImpl`: the pool of instances, the stored
instance count, the `int32` round-robin cursor, the `int32` occupancy
counter, the module's creation-attempt counter and the identity
surrogate `pid` for the Go plugin pointer. -/
structure WasmPluginState where
  config : WasmPluginConfig
  instanceNum : Int
  instanceWrappers : List WasmInstanceWrapper
  instanceWrappersIdx : Int
  occupy : Int
  created : Nat
  pid : Nat
  deriving DecidableEq, Repr

/-- The creation loop of `EnsureInstanceNum`'s grow branch: `k` attempts
starting at creation counter `cnt`; failed attempts are skipped
(`continue` in the source), successes are appended in order. Returns the
created instances and the new counter. -/
def createInstances (env : WasmEnv) : Nat → Nat → List WasmInstanceWrapper × Nat
  | cnt, 0 => ([], cnt)
  | cnt, Nat.succ k =>
    let rest := createInstances env (cnt + 1) k
    if env.createFail cnt then rest else (⟨cnt⟩ :: rest.1, rest.2)

/-- `wasmPluginImpl.EnsureInstanceNum`: no-op when `num ≤ 0` or `num`
equals the current count; shrink truncates the instance list; grow
appends best-effort created instances.  Returns the new state and the
returned actual count. -/
def EnsureInstanceNum (env : WasmEnv) (w : WasmPluginState) (num : Int) :
    WasmPluginState × Int :=
  if num ≤ 0 ∨ num = w.instanceNum then (w, w.instanceNum)
  else if num < w.instanceNum then
    ({ w with instanceWrappers := w.instanceWrappers.take num.toNat,
              instanceNum := num }, num)
  else
    let r := createInstances env w.created (num - w.instanceNum).toNat
    let w' := { w with instanceWrappers := w.instanceWrappers ++ r.1,
                       instanceNum := w.instanceNum + r.1.length,
                       created := r.2 }
    (w', w'.instanceNum)

/-- `wasmPluginImpl.GetInstance`: index is `int(idx) % len(pool)` with Go
truncated `%`; `none` models the two runtime panics (division by zero on
an empty pool, negative slice index after cursor overflow).  On success
the `int32` cursor and occupancy counter are incremented with wrap. -/
def GetInstance (w : WasmPluginState) :
    Option (WasmInstanceWrapper × WasmPluginState) :=
  if w.instanceWrappers.length = 0 then none
  else
    let idx := Int.tmod w.instanceWrappersIdx (w.instanceWrappers.length : Int)
    if idx < 0 then none
    else
      match w.instanceWrappers.get? idx.toNat with
      | none => none
      | some iw =>
        some (iw, { w with instanceWrappersIdx := wrap32 (w.instanceWrappersIdx + 1),
                           occupy := wrap32 (w.occupy + 1) })

/-- `n` consecutive `GetInstance` calls with no interleaved resize,
collecting the returned instances in order. -/
def GetInstanceSeq (w : WasmPluginState) :
    Nat → Option (List WasmInstanceWrapper × WasmPluginState)
  | 0 => some ([], w)
  | Nat.succ k =>
    match GetInstance w with
    | none => none
    | some (iw, w') =>
      match GetInstanceSeq w' k with
      | none => none
      | some (l, w'') => some (iw :: l, w'')

/-- `wasmPluginImpl.ReleaseInstance`: decrements the occupancy counter. -/
def ReleaseInstance (w : WasmPluginState) : WasmPluginState :=
  { w with occupy := wrap32 (w.occupy - 1) }

/-- The errors of the wasm plugin layer. -/
inductive WasmErr
  | engineNotFound
  | wasmBytesLoad
  | instanceCreate
  | moduleCreate
  | emptyPluginName
  | unexpectedType
  | pluginNotFound
  deriving DecidableEq, Repr

/-- Result of a Go call: a value, a returned error, or a runtime panic
(nil-pointer dereference). -/
inductive GoResult (α : Type)
  | ok (a : α)
  | fail (e : WasmErr)
  | panicked
  deriving DecidableEq, Repr

/-- `NewWasmPlugin`: defaults a non-positive instance count to
`runtime.NumCPU()`, looks up the engine, loads the bytes (from the path
when non-empty, else the url), creates the module, then ensures the
instance count; fails with `instanceCreate` when zero instances were
achieved.  A nil `VmConfig` panics at the `GetWasmEngine` argument. -/
def NewWasmPlugin (env : WasmEnv) (pid : Nat) (wasmConfig : WasmPluginConfig) :
    GoResult WasmPluginState :=
  let instanceNum := if wasmConfig.InstanceNum ≤ 0 then env.numCPU else wasmConfig.InstanceNum
  let wasmConfig' := { wasmConfig with InstanceNum := instanceNum }
  match wasmConfig'.VmConfig with
  | none => GoResult.panicked
  | some vm =>
    if env.engineFound vm.Engine = false then GoResult.fail WasmErr.engineNotFound
    else
      let wasmBytes := if vm.Path ≠ "" then env.loadWasmBytesFromPath vm.Path
                       else env.loadWasmBytesFromUrl vm.Url
      if wasmBytes.length = 0 then GoResult.fail WasmErr.wasmBytesLoad
      else if env.newModuleOk vm.Engine wasmBytes = false then GoResult.fail WasmErr.moduleCreate
      else
        let plugin0 : WasmPluginState :=
          { config := wasmConfig', instanceNum := 0, instanceWrappers := [],
            instanceWrappersIdx := 0, occupy := 0, created := 0, pid := pid }
        let r := EnsureInstanceNum env plugin0 wasmConfig'.InstanceNum
        if r.2 = 0 then GoResult.fail WasmErr.instanceCreate else GoResult.ok r.1

/-- State of `pluginWrapper`: the current plugin, the current config and
the registered handler ids. -/
structure PluginWrapperState where
  plugin : WasmPluginState
  config : WasmPluginConfig
  pluginHandlers : List Nat
  deriving DecidableEq, Repr

/-- Observable lifecycle events, in emission order: handler
notifications, the publication of the new plugin as current (the
`w.plugin = plugin` store) and the old plugin's `Clear`. -/
inductive WasmEvent
  | onConfigUpdate (h : Nat) (c : WasmPluginConfig)
  | onPluginStart (h : Nat) (p : Nat)
  | publish (p : Nat)
  | onPluginDestroy (h : Nat) (p : Nat)
  | clear (p : Nat)
  deriving DecidableEq, Repr

/-- `pluginWrapper.Update`: silently rejects an empty or differing
plugin name; notifies `OnConfigUpdate` and stores the config; then, for
a non-nil plugin different (by identity) from the current one, notifies
`OnPluginStart`, publishes the new plugin, notifies `OnPluginDestroy`
and clears the old plugin. -/
def PluginWrapperState.Update (w : PluginWrapperState) (config : WasmPluginConfig)
    (plugin : Option WasmPluginState) : PluginWrapperState × List WasmEvent :=
  if config.PluginName = "" ∨ config.PluginName ≠ w.config.PluginName then (w, [])
  else
    let evs1 := w.pluginHandlers.map (fun h => WasmEvent.onConfigUpdate h config)
    let w1 := { w with config := config }
    match plugin with
    | none => (w1, evs1)
    | some p =>
      if p.pid = w1.plugin.pid then (w1, evs1)
      else
        let evs2 := w1.pluginHandlers.map (fun h => WasmEvent.onPluginStart h p.pid)
        let w2 := { w1 with plugin := p }
        let evs3 := w2.pluginHandlers.map (fun h => WasmEvent.onPluginDestroy h w1.plugin.pid)
        (w2, evs1 ++ evs2 ++ WasmEvent.publish p.pid :: evs3 ++ [WasmEvent.clear w1.plugin.pid])

/-- `pluginWrapper.RegisterPluginHandler`: appends the handler and
notifies it of the current config and plugin. -/
def PluginWrapperState.RegisterPluginHandler (w : PluginWrapperState) (h : Nat) :
    PluginWrapperState × List WasmEvent :=
  ({ w with pluginHandlers := w.pluginHandlers ++ [h] },
   [WasmEvent.onConfigUpdate h w.config, WasmEvent.onPluginStart h w.plugin.pid])

/-- `wasmMangerImpl.shouldCreateNewPlugin`: a new plugin is required
exactly when both VM configs are non-nil and the engine, path or url
changed. -/
def shouldCreateNewPlugin (newConfig oldConfig : WasmPluginConfig) : Bool :=
  match newConfig.VmConfig, oldConfig.VmConfig with
  | some nv, some ov => nv.Engine != ov.Engine || nv.Path != ov.Path || nv.Url != ov.Url
  | _, _ => false

/-- Outcome of `wasmMangerImpl.updateWasm`: the wrapper after the call
(Go mutates it in place through shared pointers), the emitted events,
whether `NewWasmPlugin` was invoked (rebuild) and whether
`EnsureInstanceNum` was invoked on the existing plugin (reuse), the pid
allocator, and whether the call panicked (nil `VmConfig` dereferenced at
`SetCpuLimit`). -/
structure UpdateWasmResult where
  wrapper : PluginWrapperState
  events : List WasmEvent
  builtNewPlugin : Bool
  ensureCalled : Bool
  nextPid : Nat
  panicked : Bool
  deriving Repr

/-- `wasmMangerImpl.updateWasm`: no-op on a deep-equal config; rebuild
via `NewWasmPlugin` when `shouldCreateNewPlugin`, abandoning the update
on failure; otherwise resize the existing plugin in place, abandoning
the update when the achieved count is zero; then publish through
`pluginWrapper.Update`. -/
def updateWasm (env : WasmEnv) (nextPid : Nat) (w : PluginWrapperState)
    (newConfig : WasmPluginConfig) : UpdateWasmResult :=
  if newConfig = w.config then ⟨w, [], false, false, nextPid, false⟩
  else if shouldCreateNewPlugin newConfig w.config then
    match NewWasmPlugin env nextPid newConfig with
    | GoResult.ok p =>
      let r := w.Update newConfig (some p)
      ⟨r.1, r.2, true, false, nextPid + 1, false⟩
    | GoResult.fail _ => ⟨w, [], true, false, nextPid + 1, false⟩
    | GoResult.panicked => ⟨w, [], true, false, nextPid + 1, true⟩
  else
    let r := EnsureInstanceNum env w.plugin newConfig.InstanceNum
    let w1 := { w with plugin := r.1 }
    if r.2 = 0 then ⟨w1, [], false, true, nextPid, false⟩
    else
      match newConfig.VmConfig with
      | none => ⟨w1, [], false, true, nextPid, true⟩
      | some _ =>
        let r2 := w1.Update newConfig (some r.1)
        ⟨r2.1, r2.2, false, true, nextPid, false⟩

/-- A value stored in the manager's `sync.Map`: a plugin wrapper, or an
unexpected type (the `v.(*pluginWrapper)` assertion's failure case). -/
inductive RegistryEntry
  | wrapper (w : PluginWrapperState)
  | other
  deriving Repr

/-- State of `wasmMangerImpl`: the name-to-entry registry and the pid
allocator standing for Go heap allocation of plugins. -/
structure ManagerState where
  pluginMap : List (String × RegistryEntry)
  nextPid : Nat
  deriving Repr

/-- Lookup in the registry (`sync.Map.Load`). -/
def lookupEntry : List (String × RegistryEntry) → String → Option RegistryEntry
  | [], _ => none
  | (k, v) :: t, name => if k = name then some v else lookupEntry t name

/-- Store in the registry, replacing an existing binding
(`sync.Map.LoadOrStore` on an absent key, or the in-place mutation of an
existing wrapper). -/
def storeEntry : List (String × RegistryEntry) → String → RegistryEntry →
    List (String × RegistryEntry)
  | [], name, v => [(name, v)]
  | (k, v') :: t, name, v =>
    if k = name then (name, v) :: t else (k, v') :: storeEntry t name v

/-- Outcome of `wasmMangerImpl.AddOrUpdateWasm`. -/
structure AddOrUpdateResult where
  res : GoResult Unit
  state : ManagerState
  events : List WasmEvent
  builtNewPlugin : Bool
  ensureCalled : Bool
  deriving Repr

/-- `wasmMangerImpl.AddOrUpdateWasm`: rejects an empty plugin name; for
a registered name runs `updateWasm` and returns nil (or the unexpected
type error for a corrupted entry); for a fresh name constructs a plugin
and registers a new wrapper, returning the construction error on
failure with the registry untouched. -/
def AddOrUpdateWasm (env : WasmEnv) (m : ManagerState) (config : WasmPluginConfig) :
    AddOrUpdateResult :=
  if config.PluginName = "" then
    ⟨GoResult.fail WasmErr.emptyPluginName, m, [], false, false⟩
  else
    match lookupEntry m.pluginMap config.PluginName with
    | some (RegistryEntry.wrapper w) =>
      let r := updateWasm env m.nextPid w config
      ⟨if r.panicked then GoResult.panicked else GoResult.ok (),
       { pluginMap := storeEntry m.pluginMap config.PluginName (RegistryEntry.wrapper r.wrapper),
         nextPid := r.nextPid },
       r.events, r.builtNewPlugin, r.ensureCalled⟩
    | some RegistryEntry.other =>
      ⟨GoResult.fail WasmErr.unexpectedType, m, [], false, false⟩
    | none =>
      match NewWasmPlugin env m.nextPid config with
      | GoResult.ok p =>
        ⟨GoResult.ok (),
         { pluginMap := storeEntry m.pluginMap config.PluginName
             (RegistryEntry.wrapper ⟨p, config, []⟩),
           nextPid := m.nextPid + 1 },
         [], true, false⟩
      | GoResult.fail e => ⟨GoResult.fail e, m, [], true, false⟩
      | GoResult.panicked => ⟨GoResult.panicked, m, [], true, false⟩

/-- The length invariant of the pool: the instance list's length equals
the stored `instanceNum`. -/
def lenInv (w : WasmPluginState) : Prop :=
  (w.instanceWrappers.length : Int) = w.instanceNum

instance (w : WasmPluginState) : Decidable (lenInv w) := by
  unfold lenInv
  infer_instance

/-! ### Helper lemmas about the pool -/

theorem EnsureInstanceNum_snd (env : WasmEnv) (w : WasmPluginState) (num : Int) :
    (EnsureInstanceNum env w num).2 = (EnsureInstanceNum env w num).1.instanceNum := by
  unfold EnsureInstanceNum
  split
  · rfl
  · split <;> rfl

theorem EnsureInstanceNum_pid (env : WasmEnv) (w : WasmPluginState) (num : Int) :
    (EnsureInstanceNum env w num).1.pid = w.pid := by
  unfold EnsureInstanceNum
  split
  · rfl
  · split <;> rfl

theorem EnsureInstanceNum_idx (env : WasmEnv) (w : WasmPluginState) (num : Int) :
    (EnsureInstanceNum env w num).1.instanceWrappersIdx = w.instanceWrappersIdx := by
  unfold EnsureInstanceNum
  split
  · rfl
  · split <;> rfl

theorem EnsureInstanceNum_lenInv (env : WasmEnv) (w : WasmPluginState) (num : Int)
    (h : lenInv w) : lenInv (EnsureInstanceNum env w num).1 := by
  unfold lenInv at h ⊢
  unfold EnsureInstanceNum
  split
  · exact h
  · next hcond =>
    push_neg at hcond
    split
    · next hlt =>
      simp only [List.length_take]
      omega
    · simp only [List.length_append]
      push_cast
      omega

/-! ### Concrete inputs used by witnesses and counterexamples -/

/-- An environment where every external operation succeeds. -/
def envOk : WasmEnv :=
  { numCPU := 4
    engineFound := fun _ => true
    loadWasmBytesFromPath := fun _ => [1]
    loadWasmBytesFromUrl := fun _ => [2]
    newModuleOk := fun _ _ => true
    createFail := fun _ => false }

/-- An environment where the first instance creation attempt fails and
later attempts succeed (a transient engine failure). -/
def envFlaky : WasmEnv :=
  { envOk with createFail := fun k => k == 0 }

def cfgA : WasmPluginConfig :=
  { PluginName := "p1", VmConfig := some ⟨"wasmer", "a.wasm", "", 0, 0⟩, InstanceNum := 3 }

/-- A well-formed pool of three instances whose round-robin cursor has
reached the largest `int32` value, as after 2^31 - 1 acquisitions. -/
def poolAtMaxCursor : WasmPluginState :=
  { config := cfgA, instanceNum := 3
    instanceWrappers := [⟨0⟩, ⟨1⟩, ⟨2⟩]
    instanceWrappersIdx := 2147483647, occupy := 0, created := 3, pid := 0 }

/-- A pool of one instance on which the first growth attempt will fail
under `envFlaky`. -/
def poolOfOne : WasmPluginState :=
  { config := cfgA, instanceNum := 1, instanceWrappers := [⟨5⟩]
    instanceWrappersIdx := 0, occupy := 0, created := 0, pid := 0 }

/-- A well-formed pool of two instances with a small cursor. -/
def poolOfTwo : WasmPluginState :=
  { config := cfgA, instanceNum := 2, instanceWrappers := [⟨0⟩, ⟨1⟩]
    instanceWrappersIdx := 1, occupy := 0, created := 2, pid := 0 }

/-! ### C2: no-op cases and idempotence of EnsureInstanceNum -/

/-- C2 (counterexample): calling `EnsureInstanceNum` twice with the same
target is not always a no-op after the first call.  With one existing
instance and a target of 2, a transiently failing engine makes the first
call return 1 (best-effort growth creates nothing), while the second
call creates the missing instance and changes the pool. -/
theorem ensureInstanceNum_not_idempotent :
    EnsureInstanceNum envFlaky poolOfOne 2 ≠
      (poolOfOne, 2) ∧
    (EnsureInstanceNum envFlaky (EnsureInstanceNum envFlaky poolOfOne 2).1 2).1 ≠
      (EnsureInstanceNum envFlaky poolOfOne 2).1 := by
  constructor
  · decide
  · decide

/-- C2 (amended): `EnsureInstanceNum(n)` with `n ≤ 0` or `n` equal to
the current instance count changes nothing and returns the current
count; and calling it twice with the same target changes nothing after
the first call provided the first call achieved its target (returned
`n`) — in particular whenever every instance creation succeeds.  With
partial creation failure the second call may grow the pool further. -/
theorem ensureInstanceNum_noop_and_idem :
    (∀ env (w : WasmPluginState) (num : Int), num ≤ 0 ∨ num = w.instanceNum →
       EnsureInstanceNum env w num = (w, w.instanceNum)) ∧
    (∀ env (w w' : WasmPluginState) (num : Int),
       EnsureInstanceNum env w num = (w', num) →
       EnsureInstanceNum env w' num = (w', num)) := by
  constructor
  · intro env w num h
    unfold EnsureInstanceNum
    rw [if_pos h]
  · intro env w w' num h
    have hsnd := EnsureInstanceNum_snd env w num
    rw [h] at hsnd
    simp only at hsnd
    unfold EnsureInstanceNum
    rw [if_pos (Or.inr hsnd)]
    rw [← hsnd]

/-- Witness for `ensureInstanceNum_noop_and_idem` at concrete inputs. -/
theorem ensureInstanceNum_noop_and_idem_witness :
    EnsureInstanceNum envOk poolOfTwo 2 = (poolOfTwo, 2) :=
  ensureInstanceNum_noop_and_idem.2 envOk poolOfTwo poolOfTwo 2
    ((ensureInstanceNum_noop_and_idem.1 envOk poolOfTwo 2 (Or.inr (by decide))).trans
      (by decide))

theorem ensure_pos_of_ne_zero (env : WasmEnv) (w : WasmPluginState) (num : Int)
    (hw : lenInv w) (h : (EnsureInstanceNum env w num).2 ≠ 0) :
    1 ≤ (EnsureInstanceNum env w num).1.instanceNum ∧
    lenInv (EnsureInstanceNum env w num).1 := by
  have hsnd := EnsureInstanceNum_snd env w num
  have hinv := EnsureInstanceNum_lenInv env w num hw
  refine ⟨?_, hinv⟩
  unfold lenInv at hinv
  omega

/-! ### C3: the length invariant and construction -/

/-- The plugin state produced by `NewWasmPlugin envOk 0 cfgA`. -/
def pluginA : WasmPluginState :=
  { config := cfgA, instanceNum := 3
    instanceWrappers := [⟨0⟩, ⟨1⟩, ⟨2⟩]
    instanceWrappersIdx := 0, occupy := 0, created := 3, pid := 0 }

/-- C3: after any resize the length of the instance list equals the
stored `instanceNum`, and a successfully constructed plugin has
`instanceNum ≥ 1` (and satisfies the length invariant). -/
theorem plugin_len_invariant :
    (∀ env (w : WasmPluginState) (num : Int), lenInv w →
       lenInv (EnsureInstanceNum env w num).1) ∧
    (∀ env (pid : Nat) (cfg : WasmPluginConfig) (p : WasmPluginState),
       NewWasmPlugin env pid cfg = GoResult.ok p →
       1 ≤ p.instanceNum ∧ lenInv p) := by
  constructor
  · exact EnsureInstanceNum_lenInv
  · intro env pid cfg p h
    simp only [NewWasmPlugin] at h
    repeat' split at h
    all_goals simp only [GoResult.ok.injEq, reduceCtorEq] at h
    all_goals subst h
    all_goals exact ensure_pos_of_ne_zero _ _ _ (by simp [lenInv]) (by assumption)

/-- Witness for `plugin_len_invariant` at concrete inputs. -/
theorem plugin_len_invariant_witness :
    lenInv (EnsureInstanceNum envOk poolOfTwo 5).1 ∧
    (1 ≤ pluginA.instanceNum ∧ lenInv pluginA) :=
  ⟨plugin_len_invariant.1 envOk poolOfTwo 5 (by decide),
   plugin_len_invariant.2 envOk 0 cfgA pluginA (by decide)⟩

/-! ### C5: name identity of the wrapper is immutable -/

/-- C5: an `Update` whose config has an empty or differing plugin name
is a complete no-op (state unchanged, no events), and no `Update` or
`RegisterPluginHandler` ever changes the wrapper's `config.PluginName`. -/
theorem pluginWrapper_name_immutable :
    (∀ (w : PluginWrapperState) (cfg : WasmPluginConfig) (p : Option WasmPluginState),
       cfg.PluginName = "" ∨ cfg.PluginName ≠ w.config.PluginName →
       PluginWrapperState.Update w cfg p = (w, [])) ∧
    (∀ (w : PluginWrapperState) (cfg : WasmPluginConfig) (p : Option WasmPluginState),
       ((PluginWrapperState.Update w cfg p).1).config.PluginName = w.config.PluginName) ∧
    (∀ (w : PluginWrapperState) (h : Nat),
       ((PluginWrapperState.RegisterPluginHandler w h).1).config = w.config) := by
  refine ⟨?_, ?_, ?_⟩
  · intro w cfg p h
    unfold PluginWrapperState.Update
    rw [if_pos h]
  · intro w cfg p
    unfold PluginWrapperState.Update
    split
    · rfl
    · next hcond =>
      push_neg at hcond
      match p with
      | none => exact hcond.2
      | some q =>
        simp only
        split
        · exact hcond.2
        · exact hcond.2
  · intro w h
    rfl

/-- Witness for `pluginWrapper_name_immutable` at concrete inputs. -/
theorem pluginWrapper_name_immutable_witness :
    PluginWrapperState.Update ⟨pluginA, cfgA, [1]⟩
      { cfgA with PluginName := "zzz" } none = (⟨pluginA, cfgA, [1]⟩, []) :=
  pluginWrapper_name_immutable.1 ⟨pluginA, cfgA, [1]⟩
    { cfgA with PluginName := "zzz" } none (Or.inr (by decide))

/-! ### C4: observer ordering on a plugin swap -/

/-- Phase of an event along the hot-update protocol: config
notifications, then start notifications, then the publication of the
new plugin, then destroy notifications, then the old plugin's clear. -/
def eventPhase : WasmEvent → Nat
  | WasmEvent.onConfigUpdate _ _ => 0
  | WasmEvent.onPluginStart _ _ => 1
  | WasmEvent.publish _ => 2
  | WasmEvent.onPluginDestroy _ _ => 3
  | WasmEvent.clear _ => 4

theorem update_swap_events (w : PluginWrapperState) (cfg : WasmPluginConfig)
    (p : WasmPluginState)
    (hname : ¬(cfg.PluginName = "" ∨ cfg.PluginName ≠ w.config.PluginName))
    (hpid : ¬p.pid = w.plugin.pid) :
    (PluginWrapperState.Update w cfg (some p)).2 =
      w.pluginHandlers.map (fun h => WasmEvent.onConfigUpdate h cfg) ++
      (w.pluginHandlers.map (fun h => WasmEvent.onPluginStart h p.pid) ++
        WasmEvent.publish p.pid ::
          (w.pluginHandlers.map (fun h => WasmEvent.onPluginDestroy h w.plugin.pid) ++
            [WasmEvent.clear w.plugin.pid])) := by
  unfold PluginWrapperState.Update
  rw [if_neg hname]
  simp only
  rw [if_neg hpid]
  simp [List.append_assoc]

theorem pairwise_phase_const {l : List Nat} {f : Nat → WasmEvent} {c : Nat}
    (hf : ∀ x, eventPhase (f x) = c) :
    (l.map f).Pairwise (fun a b => eventPhase a ≤ eventPhase b) := by
  induction l with
  | nil => exact List.Pairwise.nil
  | cons a t ih =>
    refine List.Pairwise.cons ?_ ih
    intro b hb
    rcases List.mem_map.mp hb with ⟨x, _, hx⟩
    rw [← hx, hf, hf]

theorem update_swap_phase_mono (w : PluginWrapperState) (cfg : WasmPluginConfig)
    (p : WasmPluginState)
    (hname : ¬(cfg.PluginName = "" ∨ cfg.PluginName ≠ w.config.PluginName))
    (hpid : ¬p.pid = w.plugin.pid) :
    ((PluginWrapperState.Update w cfg (some p)).2).Pairwise
      (fun a b => eventPhase a ≤ eventPhase b) := by
  rw [update_swap_events w cfg p hname hpid]
  rw [List.pairwise_append]
  refine ⟨pairwise_phase_const (fun x => rfl), ?_, ?_⟩
  · rw [List.pairwise_append]
    refine ⟨pairwise_phase_const (fun x => rfl), ?_, ?_⟩
    · rw [List.pairwise_cons]
      refine ⟨?_, ?_⟩
      · intro b hb
        rcases List.mem_append.mp hb with hb | hb
        · rcases List.mem_map.mp hb with ⟨x, _, hx⟩
          rw [← hx]
          exact Nat.le_of_lt (by norm_num [eventPhase])
        · rcases List.mem_singleton.mp hb with rfl
          exact Nat.le_of_lt (by norm_num [eventPhase])
      · rw [List.pairwise_append]
        refine ⟨pairwise_phase_const (fun x => rfl), List.pairwise_singleton _ _, ?_⟩
        intro a ha b hb
        rcases List.mem_map.mp ha with ⟨x, _, hx⟩
        rcases List.mem_singleton.mp hb with rfl
        rw [← hx]
        exact Nat.le_of_lt (by norm_num [eventPhase])
    · intro a ha b hb
      rcases List.mem_map.mp ha with ⟨x, _, hx⟩
      rw [← hx]
      rcases List.mem_cons.mp hb with rfl | hb
      · exact Nat.le_of_lt (by norm_num [eventPhase])
      · rcases List.mem_append.mp hb with hb | hb
        · rcases List.mem_map.mp hb with ⟨y, _, hy⟩
          rw [← hy]
          exact Nat.le_of_lt (by norm_num [eventPhase])
        · rcases List.mem_singleton.mp hb with rfl
          exact Nat.le_of_lt (by norm_num [eventPhase])
  · intro a ha b hb
    rcases List.mem_map.mp ha with ⟨x, _, hx⟩
    rw [← hx]
    exact Nat.zero_le _

/-- C4: on a plugin swap (matching name, non-nil new plugin with a
different identity), every handler's `OnPluginStart(new)` event occurs,
the publication and the old plugin's clear occur, every handler's
`OnPluginDestroy(old)` event occurs, and any event of a strictly
earlier protocol phase occurs strictly earlier in the trace — hence
each `OnPluginStart(new)` precedes the publication, which precedes each
`OnPluginDestroy(old)`, which precedes the old plugin's `Clear`. -/
theorem update_observer_ordering (w : PluginWrapperState) (cfg : WasmPluginConfig)
    (p : WasmPluginState)
    (h1 : cfg.PluginName ≠ "") (h2 : cfg.PluginName = w.config.PluginName)
    (h3 : p.pid ≠ w.plugin.pid) :
    (∀ h ∈ w.pluginHandlers,
       WasmEvent.onPluginStart h p.pid ∈ (PluginWrapperState.Update w cfg (some p)).2 ∧
       WasmEvent.onPluginDestroy h w.plugin.pid ∈ (PluginWrapperState.Update w cfg (some p)).2) ∧
    WasmEvent.publish p.pid ∈ (PluginWrapperState.Update w cfg (some p)).2 ∧
    WasmEvent.clear w.plugin.pid ∈ (PluginWrapperState.Update w cfg (some p)).2 ∧
    ∀ (i j : Nat) (hi : i < (PluginWrapperState.Update w cfg (some p)).2.length)
      (hj : j < (PluginWrapperState.Update w cfg (some p)).2.length),
      eventPhase ((PluginWrapperState.Update w cfg (some p)).2.get ⟨i, hi⟩) <
        eventPhase ((PluginWrapperState.Update w cfg (some p)).2.get ⟨j, hj⟩) →
      i < j := by
  have hname : ¬(cfg.PluginName = "" ∨ cfg.PluginName ≠ w.config.PluginName) := by
    push_neg
    exact ⟨h1, h2⟩
  have hevs := update_swap_events w cfg p hname h3
  refine ⟨?_, ?_, ?_, ?_⟩
  · intro h hh
    rw [hevs]
    constructor
    · exact List.mem_append_right _ (List.mem_append_left _ (List.mem_map_of_mem _ hh))
    · exact List.mem_append_right _ (List.mem_append_right _ (List.mem_cons_of_mem _
        (List.mem_append_left _ (List.mem_map_of_mem _ hh))))
  · rw [hevs]
    exact List.mem_append_right _ (List.mem_append_right _ (List.mem_cons_self _ _))
  · rw [hevs]
    exact List.mem_append_right _ (List.mem_append_right _ (List.mem_cons_of_mem _
      (List.mem_append_right _ (List.mem_singleton_self _))))
  · intro i j hi hj hlt
    have hpw := update_swap_phase_mono w cfg p hname h3
    by_contra hij
    push_neg at hij
    rcases Nat.lt_or_ge j i with hji | hji
    · have := List.pairwise_iff_getElem.mp hpw j i hj hi hji
      simp only [List.get_eq_getElem] at hlt
      omega
    · have hij2 : i = j := Nat.le_antisymm hji hij
      subst hij2
      exact absurd hlt (lt_irrefl _)

/-- Witness for `update_observer_ordering` at concrete inputs. -/
theorem update_observer_ordering_witness :
    WasmEvent.publish 9 ∈
      (PluginWrapperState.Update ⟨pluginA, cfgA, [1, 2]⟩ cfgA
        (some { pluginA with pid := 9 })).2 :=
  (update_observer_ordering ⟨pluginA, cfgA, [1, 2]⟩ cfgA { pluginA with pid := 9 }
    (by decide) (by decide) (by decide)).2.1

/-! ### C1: round-robin law of GetInstance -/

theorem wrap32_eq_self {x : Int} (h1 : -(2 ^ 31) ≤ x) (h2 : x < 2 ^ 31) :
    wrap32 x = x := by
  unfold wrap32
  omega

theorem GetInstance_pos (w : WasmPluginState) (hne : w.instanceWrappers ≠ [])
    (hidx : 0 ≤ w.instanceWrappersIdx) :
    GetInstance w = some (w.instanceWrappers.getD
        (w.instanceWrappersIdx.toNat % w.instanceWrappers.length) default,
      { w with instanceWrappersIdx := wrap32 (w.instanceWrappersIdx + 1),
               occupy := wrap32 (w.occupy + 1) }) := by
  have hlen0 : w.instanceWrappers.length ≠ 0 := by
    simpa [List.length_eq_zero] using hne
  have hlt : w.instanceWrappersIdx.toNat % w.instanceWrappers.length <
      w.instanceWrappers.length := Nat.mod_lt _ (Nat.pos_of_ne_zero hlen0)
  have hmod : Int.tmod w.instanceWrappersIdx (w.instanceWrappers.length : Int) =
      ((w.instanceWrappersIdx.toNat % w.instanceWrappers.length : Nat) : Int) := by
    rw [Int.tmod_eq_emod hidx (Int.natCast_nonneg _)]
    conv_lhs => rw [← Int.toNat_of_nonneg hidx]
    push_cast
    rfl
  simp only [GetInstance]
  rw [if_neg hlen0, hmod]
  rw [if_neg (Int.not_lt.mpr (Int.natCast_nonneg _))]
  simp only [Int.toNat_natCast]
  rw [List.get?_eq_getElem?, List.getElem?_eq_getElem hlt]
  rw [List.getD_eq_getElem _ _ hlt]

theorem GetInstanceSeq_spec (k : Nat) :
    ∀ (w : WasmPluginState), w.instanceWrappers ≠ [] →
      0 ≤ w.instanceWrappersIdx →
      w.instanceWrappersIdx + (k : Int) ≤ 2 ^ 31 →
      ∃ w', GetInstanceSeq w k = some
          ((List.range k).map (fun i => w.instanceWrappers.getD
            ((w.instanceWrappersIdx.toNat + i) % w.instanceWrappers.length) default), w') ∧
        w'.instanceWrappers = w.instanceWrappers := by
  induction k with
  | zero =>
    intro w hne hidx hbound
    exact ⟨w, rfl, rfl⟩
  | succ k ih =>
    intro w hne hidx hbound
    have hget := GetInstance_pos w hne hidx
    rcases Nat.eq_zero_or_pos k with hk | hk
    · subst hk
      refine ⟨{ w with instanceWrappersIdx := wrap32 (w.instanceWrappersIdx + 1),
                       occupy := wrap32 (w.occupy + 1) }, ?_, rfl⟩
      simp only [GetInstanceSeq, hget]
      simp [List.range_succ]
    · have hwrap : wrap32 (w.instanceWrappersIdx + 1) = w.instanceWrappersIdx + 1 :=
        wrap32_eq_self (by omega) (by omega)
      have hrec := ih { w with instanceWrappersIdx := wrap32 (w.instanceWrappersIdx + 1),
                               occupy := wrap32 (w.occupy + 1) }
        hne (by simp only [hwrap]; omega) (by simp only [hwrap]; omega)
      rcases hrec with ⟨w', hseq, hpres⟩
      refine ⟨w', ?_, hpres⟩
      simp only [GetInstanceSeq, hget, hseq]
      have hmap : (List.range k).map (fun i =>
          w.instanceWrappers.getD
            (((wrap32 (w.instanceWrappersIdx + 1)).toNat + i) %
              w.instanceWrappers.length) default) =
          (List.range k).map (fun i =>
            w.instanceWrappers.getD
              ((w.instanceWrappersIdx.toNat + (i + 1)) %
                w.instanceWrappers.length) default) := by
        apply List.map_congr_left
        intro a _
        have harg : (wrap32 (w.instanceWrappersIdx + 1)).toNat + a =
            w.instanceWrappersIdx.toNat + (a + 1) := by
          rw [hwrap]
          omega
        rw [harg]
      rw [hmap]
      rw [List.range_succ_eq_map, List.map_cons, List.map_map]
      simp [Function.comp]

theorem map_range_getD_rotate (l : List WasmInstanceWrapper) (c : Nat) (hne : l ≠ []) :
    (List.range l.length).map (fun i => l.getD ((c + i) % l.length) default) =
      l.rotate c := by
  have hpos : 0 < l.length := List.length_pos.mpr hne
  apply List.ext_getElem
  · simp
  · intro n h1 h2
    simp only [List.getElem_map, List.getElem_range]
    rw [List.getElem_rotate]
    rw [List.getD_eq_getElem _ _ (Nat.mod_lt _ hpos)]
    have hcomm : (c + n) % l.length = (n + c) % l.length := by
      rw [Nat.add_comm]
    simp only [hcomm]

/-- C1 (amended): for every well-formed pool, after `EnsureInstanceNum(n)`
returns `n` (with `n ≥ 1`), the instance count and the pool length both
equal `n`, and — provided the round-robin cursor is nonnegative and the
`n` calls do not overflow the `int32` cursor — `n` consecutive
`GetInstance()` calls succeed and return a permutation of the pool,
visiting each existing instance exactly once. -/
theorem ensure_roundRobin (env : WasmEnv) (s s' : WasmPluginState) (n : Int)
    (hwf : lenInv s) (hn : 1 ≤ n)
    (hens : EnsureInstanceNum env s n = (s', n))
    (hidx : 0 ≤ s'.instanceWrappersIdx)
    (hbound : s'.instanceWrappersIdx + n ≤ 2 ^ 31) :
    s'.instanceNum = n ∧ (s'.instanceWrappers.length : Int) = n ∧
    ∃ seq s'', GetInstanceSeq s' n.toNat = some (seq, s'') ∧
      seq.Perm s'.instanceWrappers := by
  have hsnd := EnsureInstanceNum_snd env s n
  rw [hens] at hsnd
  have hsnd2 : n = s'.instanceNum := hsnd
  have hinv := EnsureInstanceNum_lenInv env s n hwf
  rw [hens] at hinv
  unfold lenInv at hinv
  have hinv2 : (s'.instanceWrappers.length : Int) = s'.instanceNum := hinv
  have hlen : (s'.instanceWrappers.length : Int) = n := by omega
  have hne : s'.instanceWrappers ≠ [] := by
    intro hnil
    rw [hnil] at hlen
    simp at hlen
    omega
  have hcast : ((n.toNat : Nat) : Int) = n := Int.toNat_of_nonneg (by omega)
  rcases GetInstanceSeq_spec n.toNat s' hne hidx (by omega) with ⟨w', hseq, _⟩
  refine ⟨by omega, hlen, ?_⟩
  refine ⟨_, w', hseq, ?_⟩
  have hlen2 : n.toNat = s'.instanceWrappers.length := by omega
  rw [hlen2]
  rw [map_range_getD_rotate s'.instanceWrappers s'.instanceWrappersIdx.toNat hne]
  exact List.rotate_perm _ _

/-- C1 (counterexample): the round-robin law fails as stated once the
`int32` cursor reaches its maximum: after a no-op `EnsureInstanceNum(3)`
on a well-formed pool of three instances with cursor `2^31 - 1`, three
consecutive `GetInstance()` calls do not return three instances — the
second call wraps the cursor negative, Go's truncated `%` yields a
negative slice index and the call panics. -/
theorem ensure_roundRobin_cex :
    lenInv poolAtMaxCursor ∧
    EnsureInstanceNum envOk poolAtMaxCursor 3 = (poolAtMaxCursor, 3) ∧
    GetInstanceSeq poolAtMaxCursor 3 = none := by
  refine ⟨by decide, by decide, by decide⟩

/-- Witness for `ensure_roundRobin` at concrete inputs. -/
theorem ensure_roundRobin_witness :
    poolOfTwo.instanceNum = 2 ∧ ((poolOfTwo.instanceWrappers.length : Nat) : Int) = 2 ∧
    ∃ seq s'', GetInstanceSeq poolOfTwo 2 = some (seq, s'') ∧
      seq.Perm poolOfTwo.instanceWrappers :=
  ensure_roundRobin envOk poolOfTwo poolOfTwo 2 (by decide) (by decide) (by decide)
    (by decide) (by decide)

/-! ### Helper lemmas about the manager -/

theorem NewWasmPlugin_ne_emptyName (env : WasmEnv) (pid : Nat) (cfg : WasmPluginConfig) :
    NewWasmPlugin env pid cfg ≠ GoResult.fail WasmErr.emptyPluginName := by
  intro h
  simp only [NewWasmPlugin] at h
  repeat' split at h
  all_goals simp at h

theorem storeEntry_eq_of_lookup (l : List (String × RegistryEntry)) (k : String)
    (v : RegistryEntry) (h : lookupEntry l k = some v) : storeEntry l k v = l := by
  induction l with
  | nil => simp [lookupEntry] at h
  | cons a t ih =>
    obtain ⟨k', v'⟩ := a
    by_cases hk : k' = k
    · subst hk
      have h2 : v' = v := by simpa [lookupEntry] using h
      simp [storeEntry, h2]
    · simp only [lookupEntry, if_neg hk] at h
      simp [storeEntry, hk, ih h]

theorem lookup_storeEntry_self (l : List (String × RegistryEntry)) (k : String)
    (v : RegistryEntry) : lookupEntry (storeEntry l k v) k = some v := by
  induction l with
  | nil => simp [storeEntry, lookupEntry]
  | cons a t ih =>
    obtain ⟨k', v'⟩ := a
    by_cases hk : k' = k
    · subst hk
      simp [storeEntry, lookupEntry]
    · simp [storeEntry, lookupEntry, hk, ih]

theorem shouldCreateNewPlugin_self (c : WasmPluginConfig) :
    shouldCreateNewPlugin c c = false := by
  unfold shouldCreateNewPlugin
  rcases c.VmConfig with _ | vm <;> simp

theorem Update_pid_of_same (w : PluginWrapperState) (cfg : WasmPluginConfig)
    (p : WasmPluginState) (hp : p.pid = w.plugin.pid) :
    ((PluginWrapperState.Update w cfg (some p)).1).plugin.pid = w.plugin.pid := by
  unfold PluginWrapperState.Update
  split
  · rfl
  · simp only
    split
    · rfl
    · next hcon => exact absurd hp hcon

theorem ensure_zero_preserves (env : WasmEnv) (s : WasmPluginState) (num : Int)
    (hw : lenInv s) (h0 : (EnsureInstanceNum env s num).2 = 0) :
    (EnsureInstanceNum env s num).1.instanceWrappers = s.instanceWrappers ∧
    (EnsureInstanceNum env s num).1.instanceNum = s.instanceNum := by
  unfold lenInv at hw
  unfold EnsureInstanceNum at h0 ⊢
  split at h0
  · next h =>
    rw [if_pos h]
    exact ⟨rfl, rfl⟩
  · next h =>
    rw [if_neg h]
    push_neg at h
    split at h0
    · next h2 =>
      simp only at h0
      omega
    · next h2 =>
      rw [if_neg h2]
      simp only at h0 ⊢
      have hlen : (createInstances env s.created (num - s.instanceNum).toNat).1.length = 0 := by
        omega
      rw [List.length_eq_zero.mp hlen]
      simp

theorem updateWasm_rebuild_fail (env : WasmEnv) (np : Nat) (w : PluginWrapperState)
    (cfg : WasmPluginConfig) (e : WasmErr)
    (hsc : shouldCreateNewPlugin cfg w.config = true)
    (hf : NewWasmPlugin env np cfg = GoResult.fail e) :
    updateWasm env np w cfg = ⟨w, [], true, false, np + 1, false⟩ := by
  have hne : cfg ≠ w.config := by
    intro h
    rw [h, shouldCreateNewPlugin_self] at hsc
    exact absurd hsc (by simp)
  unfold updateWasm
  rw [if_neg hne, if_pos hsc, hf]

theorem updateWasm_reuse_zero (env : WasmEnv) (np : Nat) (w : PluginWrapperState)
    (cfg : WasmPluginConfig) (hne : cfg ≠ w.config)
    (hsc : shouldCreateNewPlugin cfg w.config = false)
    (h0 : (EnsureInstanceNum env w.plugin cfg.InstanceNum).2 = 0) :
    updateWasm env np w cfg =
      ⟨{ w with plugin := (EnsureInstanceNum env w.plugin cfg.InstanceNum).1 },
       [], false, true, np, false⟩ := by
  simp only [updateWasm]
  rw [if_neg hne, if_neg (by simp [hsc]), if_pos h0]

/-! ### C6: error behaviour of AddOrUpdateWasm for fresh names -/

/-- C6: `AddOrUpdateWasm` returns the empty-plugin-name error exactly
when the config's plugin name is empty; and for a name with no registry
entry, when the plugin construction fails the returned error is the
construction error and the registry is left unchanged. -/
theorem addOrUpdateWasm_error_contract :
    (∀ env m cfg, ((AddOrUpdateWasm env m cfg).res = GoResult.fail WasmErr.emptyPluginName ↔
       cfg.PluginName = "")) ∧
    (∀ env m cfg e, cfg.PluginName ≠ "" →
       lookupEntry m.pluginMap cfg.PluginName = none →
       NewWasmPlugin env m.nextPid cfg = GoResult.fail e →
       (AddOrUpdateWasm env m cfg).res = GoResult.fail e ∧
       (AddOrUpdateWasm env m cfg).state = m ∧
       (AddOrUpdateWasm env m cfg).events = []) := by
  constructor
  · intro env m cfg
    constructor
    · intro h
      by_contra hne
      simp only [AddOrUpdateWasm] at h
      rw [if_neg hne] at h
      split at h
      · split at h <;> simp at h
      · simp at h
      · split at h
        · simp at h
        · next e heq =>
          simp only [GoResult.fail.injEq] at h
          subst h
          exact NewWasmPlugin_ne_emptyName env m.nextPid cfg heq
        · simp at h
    · intro h
      simp [AddOrUpdateWasm, h]
  · intro env m cfg e hne hlook hfail
    unfold AddOrUpdateWasm
    rw [if_neg hne, hlook, hfail]
    exact ⟨rfl, rfl, rfl⟩

/-- Witness for `addOrUpdateWasm_error_contract` at concrete inputs. -/
theorem addOrUpdateWasm_error_contract_witness :
    (AddOrUpdateWasm { envOk with engineFound := fun _ => false } ⟨[], 0⟩ cfgA).res =
      GoResult.fail WasmErr.engineNotFound ∧
    (AddOrUpdateWasm { envOk with engineFound := fun _ => false } ⟨[], 0⟩ cfgA).state =
      (⟨[], 0⟩ : ManagerState) :=
  ⟨(addOrUpdateWasm_error_contract.2 { envOk with engineFound := fun _ => false }
      ⟨[], 0⟩ cfgA WasmErr.engineNotFound (by decide) rfl rfl).1,
   (addOrUpdateWasm_error_contract.2 { envOk with engineFound := fun _ => false }
      ⟨[], 0⟩ cfgA WasmErr.engineNotFound (by decide) rfl rfl).2.1⟩

/-! ### C7: rebuild versus reuse -/

/-- C7: `updateWasm` on a changed config rebuilds via `NewWasmPlugin`
if and only if both VM configs are present and the engine, path or url
changed; otherwise (including when either VM config is nil) it reuses
the existing plugin — only `EnsureInstanceNum` is invoked and the
wrapper's plugin identity is preserved. -/
theorem updateWasm_rebuild_iff :
    (∀ newC oldC : WasmPluginConfig, shouldCreateNewPlugin newC oldC = true ↔
       (∃ nv ov, newC.VmConfig = some nv ∧ oldC.VmConfig = some ov ∧
         (nv.Engine ≠ ov.Engine ∨ nv.Path ≠ ov.Path ∨ nv.Url ≠ ov.Url))) ∧
    (∀ env np (w : PluginWrapperState) cfg, cfg ≠ w.config →
       ((updateWasm env np w cfg).builtNewPlugin = shouldCreateNewPlugin cfg w.config) ∧
       ((updateWasm env np w cfg).ensureCalled = !(shouldCreateNewPlugin cfg w.config)) ∧
       (shouldCreateNewPlugin cfg w.config = false →
          (updateWasm env np w cfg).wrapper.plugin.pid = w.plugin.pid)) := by
  constructor
  · intro newC oldC
    rcases hnv : newC.VmConfig with _ | nv <;> rcases hov : oldC.VmConfig with _ | ov <;>
      simp [shouldCreateNewPlugin, hnv, hov, or_assoc]
  · intro env np w cfg hne
    by_cases hsc : shouldCreateNewPlugin cfg w.config = true
    · rw [hsc]
      simp only [updateWasm]
      rw [if_neg hne, if_pos hsc]
      split
      · exact ⟨rfl, rfl, fun h => by simp [hsc] at h⟩
      · exact ⟨rfl, rfl, fun h => by simp [hsc] at h⟩
      · exact ⟨rfl, rfl, fun h => by simp [hsc] at h⟩
    · have hsc2 : shouldCreateNewPlugin cfg w.config = false := by
        simpa using hsc
      rw [hsc2]
      simp only [updateWasm]
      rw [if_neg hne, if_neg (by simp [hsc2])]
      split
      · exact ⟨rfl, rfl, fun _ => EnsureInstanceNum_pid env w.plugin cfg.InstanceNum⟩
      · split
        · exact ⟨rfl, rfl, fun _ => EnsureInstanceNum_pid env w.plugin cfg.InstanceNum⟩
        · refine ⟨rfl, rfl, fun _ => ?_⟩
          have hpid := Update_pid_of_same
            { w with plugin := (EnsureInstanceNum env w.plugin cfg.InstanceNum).1 } cfg
            (EnsureInstanceNum env w.plugin cfg.InstanceNum).1 rfl
          simp only at hpid
          rw [hpid]
          exact EnsureInstanceNum_pid env w.plugin cfg.InstanceNum

/-- Witness for `updateWasm_rebuild_iff` at concrete inputs. -/
theorem updateWasm_rebuild_iff_witness :
    (updateWasm envOk 1 ⟨pluginA, cfgA, []⟩ { cfgA with InstanceNum := 5 }).builtNewPlugin =
      shouldCreateNewPlugin { cfgA with InstanceNum := 5 } cfgA ∧
    shouldCreateNewPlugin
      { cfgA with VmConfig := some ⟨"wasmer", "b.wasm", "", 0, 0⟩ } cfgA = true :=
  ⟨((updateWasm_rebuild_iff.2 envOk 1 ⟨pluginA, cfgA, []⟩
      { cfgA with InstanceNum := 5 } (by decide)).1),
   ((updateWasm_rebuild_iff.1 { cfgA with VmConfig := some ⟨"wasmer", "b.wasm", "", 0, 0⟩ }
      cfgA).mpr ⟨⟨"wasmer", "b.wasm", "", 0, 0⟩, ⟨"wasmer", "a.wasm", "", 0, 0⟩,
      rfl, rfl, Or.inr (Or.inl (by decide))⟩)⟩

/-! ### C8: deep-equal config is a no-op -/

/-- C8: `AddOrUpdateWasm` with a config deep-equal to the one stored in
the existing wrapper for that name changes nothing: the registry, the
pid allocator and the wrapper are untouched, no events fire, no plugin
is built and no resize occurs. -/
theorem addOrUpdateWasm_same_config_noop (env : WasmEnv) (m : ManagerState)
    (cfg : WasmPluginConfig) (w : PluginWrapperState)
    (hlook : lookupEntry m.pluginMap cfg.PluginName = some (RegistryEntry.wrapper w))
    (hcfg : w.config = cfg) :
    (AddOrUpdateWasm env m cfg).state.pluginMap = m.pluginMap ∧
    (AddOrUpdateWasm env m cfg).state.nextPid = m.nextPid ∧
    (AddOrUpdateWasm env m cfg).events = [] ∧
    (AddOrUpdateWasm env m cfg).builtNewPlugin = false ∧
    (AddOrUpdateWasm env m cfg).ensureCalled = false := by
  by_cases hname : cfg.PluginName = ""
  · simp [AddOrUpdateWasm, hname]
  · have hupd : updateWasm env m.nextPid w cfg = ⟨w, [], false, false, m.nextPid, false⟩ := by
      unfold updateWasm
      rw [if_pos hcfg.symm]
    unfold AddOrUpdateWasm
    rw [if_neg hname]
    simp only [hlook]
    rw [hupd]
    refine ⟨?_, rfl, rfl, rfl, rfl⟩
    exact storeEntry_eq_of_lookup m.pluginMap cfg.PluginName (RegistryEntry.wrapper w) hlook

/-- Witness for `addOrUpdateWasm_same_config_noop` at concrete inputs. -/
theorem addOrUpdateWasm_same_config_noop_witness :
    (AddOrUpdateWasm envOk ⟨[("p1", RegistryEntry.wrapper ⟨pluginA, cfgA, []⟩)], 1⟩
        cfgA).state.pluginMap = [("p1", RegistryEntry.wrapper ⟨pluginA, cfgA, []⟩)] ∧
    (AddOrUpdateWasm envOk ⟨[("p1", RegistryEntry.wrapper ⟨pluginA, cfgA, []⟩)], 1⟩
        cfgA).events = [] :=
  ⟨(addOrUpdateWasm_same_config_noop envOk
      ⟨[("p1", RegistryEntry.wrapper ⟨pluginA, cfgA, []⟩)], 1⟩ cfgA ⟨pluginA, cfgA, []⟩
      rfl rfl).1,
   (addOrUpdateWasm_same_config_noop envOk
      ⟨[("p1", RegistryEntry.wrapper ⟨pluginA, cfgA, []⟩)], 1⟩ cfgA ⟨pluginA, cfgA, []⟩
      rfl rfl).2.2.1⟩

/-! ### C10: update failures on an existing name are swallowed -/

/-- C10: for a registered name, `AddOrUpdateWasm` returns nil no matter
whether the internal update succeeded — a failed rebuild or a resize
achieving zero instances is silently abandoned with the prior wrapper
state preserved — and the only non-nil error for an existing entry is
the unexpected-type error for a corrupted registry value. -/
theorem addOrUpdateWasm_existing_swallows :
    (∀ env m cfg (w : PluginWrapperState) e,
       cfg.PluginName ≠ "" →
       lookupEntry m.pluginMap cfg.PluginName = some (RegistryEntry.wrapper w) →
       shouldCreateNewPlugin cfg w.config = true →
       NewWasmPlugin env m.nextPid cfg = GoResult.fail e →
       (AddOrUpdateWasm env m cfg).res = GoResult.ok () ∧
       (AddOrUpdateWasm env m cfg).state.pluginMap = m.pluginMap ∧
       (AddOrUpdateWasm env m cfg).events = []) ∧
    (∀ env m cfg (w : PluginWrapperState),
       cfg.PluginName ≠ "" →
       lookupEntry m.pluginMap cfg.PluginName = some (RegistryEntry.wrapper w) →
       cfg ≠ w.config →
       shouldCreateNewPlugin cfg w.config = false →
       (EnsureInstanceNum env w.plugin cfg.InstanceNum).2 = 0 →
       lenInv w.plugin →
       (AddOrUpdateWasm env m cfg).res = GoResult.ok () ∧
       (AddOrUpdateWasm env m cfg).events = [] ∧
       ∃ w', lookupEntry (AddOrUpdateWasm env m cfg).state.pluginMap cfg.PluginName =
           some (RegistryEntry.wrapper w') ∧
         w'.config = w.config ∧
         w'.plugin.instanceWrappers = w.plugin.instanceWrappers ∧
         w'.plugin.instanceNum = w.plugin.instanceNum) ∧
    (∀ env m cfg, cfg.PluginName ≠ "" →
       lookupEntry m.pluginMap cfg.PluginName = some RegistryEntry.other →
       (AddOrUpdateWasm env m cfg).res = GoResult.fail WasmErr.unexpectedType) ∧
    (∀ env m cfg (w : PluginWrapperState) e,
       cfg.PluginName ≠ "" →
       lookupEntry m.pluginMap cfg.PluginName = some (RegistryEntry.wrapper w) →
       (AddOrUpdateWasm env m cfg).res ≠ GoResult.fail e) := by
  refine ⟨?_, ?_, ?_, ?_⟩
  · intro env m cfg w e hname hlook hsc hfail
    unfold AddOrUpdateWasm
    rw [if_neg hname]
    simp only [hlook]
    rw [updateWasm_rebuild_fail env m.nextPid w cfg e hsc hfail]
    refine ⟨rfl, ?_, rfl⟩
    exact storeEntry_eq_of_lookup m.pluginMap cfg.PluginName (RegistryEntry.wrapper w) hlook
  · intro env m cfg w hname hlook hne hsc h0 hwinv
    unfold AddOrUpdateWasm
    rw [if_neg hname]
    simp only [hlook]
    rw [updateWasm_reuse_zero env m.nextPid w cfg hne hsc h0]
    refine ⟨rfl, rfl, ?_⟩
    refine ⟨{ w with plugin := (EnsureInstanceNum env w.plugin cfg.InstanceNum).1 },
      lookup_storeEntry_self _ _ _, rfl, ?_, ?_⟩
    · exact (ensure_zero_preserves env w.plugin cfg.InstanceNum hwinv h0).1
    · exact (ensure_zero_preserves env w.plugin cfg.InstanceNum hwinv h0).2
  · intro env m cfg hname hlook
    unfold AddOrUpdateWasm
    rw [if_neg hname]
    simp only [hlook]
  · intro env m cfg w e hname hlook
    unfold AddOrUpdateWasm
    rw [if_neg hname]
    simp only [hlook]
    split <;> simp

/-- Witness for `addOrUpdateWasm_existing_swallows` at concrete inputs. -/
theorem addOrUpdateWasm_existing_swallows_witness :
    (AddOrUpdateWasm { envOk with newModuleOk := fun _ _ => false }
        ⟨[("p1", RegistryEntry.wrapper ⟨pluginA, cfgA, []⟩)], 1⟩
        { cfgA with VmConfig := some ⟨"wasmer", "b.wasm", "", 0, 0⟩ }).res =
      GoResult.ok () ∧
    (AddOrUpdateWasm { envOk with newModuleOk := fun _ _ => false }
        ⟨[("p1", RegistryEntry.wrapper ⟨pluginA, cfgA, []⟩)], 1⟩
        { cfgA with VmConfig := some ⟨"wasmer", "b.wasm", "", 0, 0⟩ }).state.pluginMap =
      [("p1", RegistryEntry.wrapper ⟨pluginA, cfgA, []⟩)] :=
  ⟨(addOrUpdateWasm_existing_swallows.1 { envOk with newModuleOk := fun _ _ => false }
      ⟨[("p1", RegistryEntry.wrapper ⟨pluginA, cfgA, []⟩)], 1⟩
      { cfgA with VmConfig := some ⟨"wasmer", "b.wasm", "", 0, 0⟩ }
      ⟨pluginA, cfgA, []⟩ WasmErr.moduleCreate (by decide) rfl (by decide) (by decide)).1,
   (addOrUpdateWasm_existing_swallows.1 { envOk with newModuleOk := fun _ _ => false }
      ⟨[("p1", RegistryEntry.wrapper ⟨pluginA, cfgA, []⟩)], 1⟩
      { cfgA with VmConfig := some ⟨"wasmer", "b.wasm", "", 0, 0⟩ }
      ⟨pluginA, cfgA, []⟩ WasmErr.moduleCreate (by decide) rfl (by decide) (by decide)).2.1⟩

/-! ### C9: the proxy-wasm ABI dispatcher (`wasmContext` in the
proxywasm package).  An export is a callable taking integer arguments
and returning a value or an engine error (trap, out-of-bounds access,
type mismatch), modelled as an opaque error message. -/

/-- A value returned by the engine; `ToI32` extracts its 32-bit view
(`wasmer.Value.ToI32`). -/
structure WasmVal where
  i32 : Int
  deriving DecidableEq, Repr

def WasmVal.ToI32 (v : WasmVal) : Int := v.i32

/-- The export table of one wasm instance
(`wasm.instance.Exports[name]`): absent entries are `none`. -/
structure WasmInstanceExports where
  Exports : String → Option (List Int → Except String WasmVal)

/-- The dispatcher's receiver (`wasmContext`): a context id bound to one
instance. -/
structure wasmContext where
  contextId : Int
  inst : WasmInstanceExports

/-- The shared dispatch pattern of the action-code calls: look up the
named export; absent means an error naming the function and result 0;
an engine error is passed through unchanged with result 0; otherwise
the result is the value's 32-bit view with no error. -/
def callExportAction (wasm : wasmContext) (name : String) (args : List Int) :
    Int × Option String :=
  match wasm.inst.Exports name with
  | none => (0, some ("func " ++ name ++ " not found"))
  | some ff =>
    match ff args with
    | Except.error err => (0, some err)
    | Except.ok res => (res.ToI32, none)

/-- The shared dispatch pattern of the side-effect-only calls: as
`callExportAction` but the value is discarded and only the error is
returned. -/
def callExportEffect (wasm : wasmContext) (name : String) (args : List Int) :
    Option String :=
  match wasm.inst.Exports name with
  | none => some ("func " ++ name ++ " not found")
  | some ff =>
    match ff args with
    | Except.error err => some err
    | Except.ok _ => none

def _start (wasm : wasmContext) : Option String :=
  callExportEffect wasm "_start" []

def proxy_on_context_create (wasm : wasmContext) (contextId parentContextId : Int) :
    Option String :=
  callExportEffect wasm "proxy_on_context_create" [contextId, parentContextId]

def proxy_on_vm_start (wasm : wasmContext) (rootContextId configurationSize : Int) :
    Int × Option String :=
  callExportAction wasm "proxy_on_vm_start" [rootContextId, configurationSize]

def proxy_on_done (wasm : wasmContext) (contextId : Int) : Int × Option String :=
  callExportAction wasm "proxy_on_done" [contextId]

def proxy_on_log (wasm : wasmContext) (contextId : Int) : Option String :=
  callExportEffect wasm "proxy_on_log" [contextId]

def proxy_on_delete (wasm : wasmContext) (contextId : Int) : Option String :=
  callExportEffect wasm "proxy_on_delete" [contextId]

def proxy_on_configure (wasm : wasmContext) (rootContextId configurationSize : Int) :
    Int × Option String :=
  callExportAction wasm "proxy_on_configure" [rootContextId, configurationSize]

def proxy_on_tick (wasm : wasmContext) (rootContextId : Int) : Option String :=
  callExportEffect wasm "proxy_on_tick" [rootContextId]

def proxy_on_new_connection (wasm : wasmContext) (contextId : Int) : Option String :=
  callExportEffect wasm "proxy_on_new_connection" [contextId]

def proxy_on_downstream_data (wasm : wasmContext)
    (contextId dataLength endOfStream : Int) : Int × Option String :=
  callExportAction wasm "proxy_on_downstream_data" [contextId, dataLength, endOfStream]

def proxy_on_downstream_connection_close (wasm : wasmContext)
    (contextId closeType : Int) : Option String :=
  callExportEffect wasm "proxy_on_downstream_connection_close" [contextId, closeType]

def proxy_on_upstream_data (wasm : wasmContext)
    (contextId dataLength endOfStream : Int) : Int × Option String :=
  callExportAction wasm "proxy_on_upstream_data" [contextId, dataLength, endOfStream]

def proxy_on_upstream_connection_close (wasm : wasmContext)
    (contextId closeType : Int) : Option String :=
  callExportEffect wasm "proxy_on_upstream_connection_close" [contextId, closeType]

def proxy_on_request_headers (wasm : wasmContext)
    (contextId headers endOfStream : Int) : Int × Option String :=
  callExportAction wasm "proxy_on_request_headers" [contextId, headers, endOfStream]

def proxy_on_request_body (wasm : wasmContext)
    (contextId bodyBufferLength endOfStream : Int) : Int × Option String :=
  callExportAction wasm "proxy_on_request_body" [contextId, bodyBufferLength, endOfStream]

def proxy_on_request_trailers (wasm : wasmContext) (contextId trailers : Int) :
    Int × Option String :=
  callExportAction wasm "proxy_on_request_trailers" [contextId, trailers]

def proxy_on_request_metadata (wasm : wasmContext) (contextId nElements : Int) :
    Int × Option String :=
  callExportAction wasm "proxy_on_request_metadata" [contextId, nElements]

def proxy_on_response_headers (wasm : wasmContext)
    (contextId headers endOfStream : Int) : Int × Option String :=
  callExportAction wasm "proxy_on_response_headers" [contextId, headers, endOfStream]

def proxy_on_response_body (wasm : wasmContext)
    (contextId bodyBufferLength endOfStream : Int) : Int × Option String :=
  callExportAction wasm "proxy_on_response_body" [contextId, bodyBufferLength, endOfStream]

def proxy_on_response_trailers (wasm : wasmContext) (contextId trailers : Int) :
    Int × Option String :=
  callExportAction wasm "proxy_on_response_trailers" [contextId, trailers]

def proxy_on_response_metadata (wasm : wasmContext) (contextId nElements : Int) :
    Int × Option String :=
  callExportAction wasm "proxy_on_response_metadata" [contextId, nElements]

def proxy_on_http_call_response (wasm : wasmContext)
    (contextId token headers bodySize trailers : Int) : Option String :=
  callExportEffect wasm "proxy_on_http_call_response"
    [contextId, token, headers, bodySize, trailers]

def proxy_on_grpc_receive_initial_metadata (wasm : wasmContext)
    (contextId token headers : Int) : Option String :=
  callExportEffect wasm "proxy_on_grpc_receive_initial_metadata" [contextId, token, headers]

def proxy_on_grpc_trailing_metadata (wasm : wasmContext)
    (contextId token trailers : Int) : Option String :=
  callExportEffect wasm "proxy_on_grpc_trailing_metadata" [contextId, token, trailers]

def proxy_on_grpc_receive (wasm : wasmContext) (contextId token responseSize : Int) :
    Option String :=
  callExportEffect wasm "proxy_on_grpc_receive" [contextId, token, responseSize]

def proxy_on_grpc_close (wasm : wasmContext) (contextId token statusCode : Int) :
    Option String :=
  callExportEffect wasm "proxy_on_grpc_close" [contextId, token, statusCode]

def proxy_on_queue_ready (wasm : wasmContext) (rootContextId token : Int) :
    Option String :=
  callExportEffect wasm "proxy_on_queue_ready" [rootContextId, token]

def proxy_validate_configuration (wasm : wasmContext)
    (rootContextId configurationSize : Int) : Int × Option String :=
  callExportAction wasm "proxy_validate_configuration" [rootContextId, configurationSize]

def proxy_on_foreign_function (wasm : wasmContext)
    (rootContextId functionId dataSize : Int) : Option String :=
  callExportEffect wasm "proxy_on_foreign_function" [rootContextId, functionId, dataSize]

/-- The contract of an action-code ABI call. -/
def ActionCallContract (wasm : wasmContext) (name : String) (args : List Int)
    (r : Int × Option String) : Prop :=
  (wasm.inst.Exports name = none → r = (0, some ("func " ++ name ++ " not found"))) ∧
  (∀ ff, wasm.inst.Exports name = some ff →
    (∀ e, ff args = Except.error e → r = (0, some e)) ∧
    (∀ v, ff args = Except.ok v → r = (v.ToI32, none)))

/-- The contract of a side-effect-only ABI call. -/
def EffectCallContract (wasm : wasmContext) (name : String) (args : List Int)
    (r : Option String) : Prop :=
  (wasm.inst.Exports name = none → r = some ("func " ++ name ++ " not found")) ∧
  (∀ ff, wasm.inst.Exports name = some ff →
    (∀ e, ff args = Except.error e → r = some e) ∧
    (∀ v, ff args = Except.ok v → r = none))

theorem callExportAction_contract (wasm : wasmContext) (name : String) (args : List Int) :
    ActionCallContract wasm name args (callExportAction wasm name args) := by
  unfold ActionCallContract callExportAction
  constructor
  · intro h
    rw [h]
  · intro ff hff
    simp only [hff]
    constructor
    · intro e he
      rw [he]
    · intro v hv
      rw [hv]

theorem callExportEffect_contract (wasm : wasmContext) (name : String) (args : List Int) :
    EffectCallContract wasm name args (callExportEffect wasm name args) := by
  unfold EffectCallContract callExportEffect
  constructor
  · intro h
    rw [h]
  · intro ff hff
    simp only [hff]
    constructor
    · intro e he
      rw [he]
    · intro v hv
      rw [hv]

/-- C9: every ABI dispatcher call satisfies its contract: a missing
export yields an error naming the attempted call (and result 0 for
action-code calls) without invoking the extension; a present export's
engine failure is returned unchanged (with result 0); otherwise
side-effect-only calls return no error and action-code calls return the
invocation's 32-bit result with no error. -/
theorem abi_dispatch_contract :
    (∀ w, EffectCallContract w "_start" [] (_start w)) ∧
    (∀ w a b, EffectCallContract w "proxy_on_context_create" [a, b]
      (proxy_on_context_create w a b)) ∧
    (∀ w a b, ActionCallContract w "proxy_on_vm_start" [a, b] (proxy_on_vm_start w a b)) ∧
    (∀ w a, ActionCallContract w "proxy_on_done" [a] (proxy_on_done w a)) ∧
    (∀ w a, EffectCallContract w "proxy_on_log" [a] (proxy_on_log w a)) ∧
    (∀ w a, EffectCallContract w "proxy_on_delete" [a] (proxy_on_delete w a)) ∧
    (∀ w a b, ActionCallContract w "proxy_on_configure" [a, b] (proxy_on_configure w a b)) ∧
    (∀ w a, EffectCallContract w "proxy_on_tick" [a] (proxy_on_tick w a)) ∧
    (∀ w a, EffectCallContract w "proxy_on_new_connection" [a]
      (proxy_on_new_connection w a)) ∧
    (∀ w a b c, ActionCallContract w "proxy_on_downstream_data" [a, b, c]
      (proxy_on_downstream_data w a b c)) ∧
    (∀ w a b, EffectCallContract w "proxy_on_downstream_connection_close" [a, b]
      (proxy_on_downstream_connection_close w a b)) ∧
    (∀ w a b c, ActionCallContract w "proxy_on_upstream_data" [a, b, c]
      (proxy_on_upstream_data w a b c)) ∧
    (∀ w a b, EffectCallContract w "proxy_on_upstream_connection_close" [a, b]
      (proxy_on_upstream_connection_close w a b)) ∧
    (∀ w a b c, ActionCallContract w "proxy_on_request_headers" [a, b, c]
      (proxy_on_request_headers w a b c)) ∧
    (∀ w a b c, ActionCallContract w "proxy_on_request_body" [a, b, c]
      (proxy_on_request_body w a b c)) ∧
    (∀ w a b, ActionCallContract w "proxy_on_request_trailers" [a, b]
      (proxy_on_request_trailers w a b)) ∧
    (∀ w a b, ActionCallContract w "proxy_on_request_metadata" [a, b]
      (proxy_on_request_metadata w a b)) ∧
    (∀ w a b c, ActionCallContract w "proxy_on_response_headers" [a, b, c]
      (proxy_on_response_headers w a b c)) ∧
    (∀ w a b c, ActionCallContract w "proxy_on_response_body" [a, b, c]
      (proxy_on_response_body w a b c)) ∧
    (∀ w a b, ActionCallContract w "proxy_on_response_trailers" [a, b]
      (proxy_on_response_trailers w a b)) ∧
    (∀ w a b, ActionCallContract w "proxy_on_response_metadata" [a, b]
      (proxy_on_response_metadata w a b)) ∧
    (∀ w a b c d e, EffectCallContract w "proxy_on_http_call_response" [a, b, c, d, e]
      (proxy_on_http_call_response w a b c d e)) ∧
    (∀ w a b c, EffectCallContract w "proxy_on_grpc_receive_initial_metadata" [a, b, c]
      (proxy_on_grpc_receive_initial_metadata w a b c)) ∧
    (∀ w a b c, EffectCallContract w "proxy_on_grpc_trailing_metadata" [a, b, c]
      (proxy_on_grpc_trailing_metadata w a b c)) ∧
    (∀ w a b c, EffectCallContract w "proxy_on_grpc_receive" [a, b, c]
      (proxy_on_grpc_receive w a b c)) ∧
    (∀ w a b c, EffectCallContract w "proxy_on_grpc_close" [a, b, c]
      (proxy_on_grpc_close w a b c)) ∧
    (∀ w a b, EffectCallContract w "proxy_on_queue_ready" [a, b]
      (proxy_on_queue_ready w a b)) ∧
    (∀ w a b, ActionCallContract w "proxy_validate_configuration" [a, b]
      (proxy_validate_configuration w a b)) ∧
    (∀ w a b c, EffectCallContract w "proxy_on_foreign_function" [a, b, c]
      (proxy_on_foreign_function w a b c)) :=
  ⟨fun w => callExportEffect_contract w "_start" [],
   fun w a b => callExportEffect_contract w "proxy_on_context_create" [a, b],
   fun w a b => callExportAction_contract w "proxy_on_vm_start" [a, b],
   fun w a => callExportAction_contract w "proxy_on_done" [a],
   fun w a => callExportEffect_contract w "proxy_on_log" [a],
   fun w a => callExportEffect_contract w "proxy_on_delete" [a],
   fun w a b => callExportAction_contract w "proxy_on_configure" [a, b],
   fun w a => callExportEffect_contract w "proxy_on_tick" [a],
   fun w a => callExportEffect_contract w "proxy_on_new_connection" [a],
   fun w a b c => callExportAction_contract w "proxy_on_downstream_data" [a, b, c],
   fun w a b => callExportEffect_contract w "proxy_on_downstream_connection_close" [a, b],
   fun w a b c => callExportAction_contract w "proxy_on_upstream_data" [a, b, c],
   fun w a b => callExportEffect_contract w "proxy_on_upstream_connection_close" [a, b],
   fun w a b c => callExportAction_contract w "proxy_on_request_headers" [a, b, c],
   fun w a b c => callExportAction_contract w "proxy_on_request_body" [a, b, c],
   fun w a b => callExportAction_contract w "proxy_on_request_trailers" [a, b],
   fun w a b => callExportAction_contract w "proxy_on_request_metadata" [a, b],
   fun w a b c => callExportAction_contract w "proxy_on_response_headers" [a, b, c],
   fun w a b c => callExportAction_contract w "proxy_on_response_body" [a, b, c],
   fun w a b => callExportAction_contract w "proxy_on_response_trailers" [a, b],
   fun w a b => callExportAction_contract w "proxy_on_response_metadata" [a, b],
   fun w a b c d e => callExportEffect_contract w "proxy_on_http_call_response"
     [a, b, c, d, e],
   fun w a b c => callExportEffect_contract w "proxy_on_grpc_receive_initial_metadata"
     [a, b, c],
   fun w a b c => callExportEffect_contract w "proxy_on_grpc_trailing_metadata" [a, b, c],
   fun w a b c => callExportEffect_contract w "proxy_on_grpc_receive" [a, b, c],
   fun w a b c => callExportEffect_contract w "proxy_on_grpc_close" [a, b, c],
   fun w a b => callExportEffect_contract w "proxy_on_queue_ready" [a, b],
   fun w a b => callExportAction_contract w "proxy_validate_configuration" [a, b],
   fun w a b c => callExportEffect_contract w "proxy_on_foreign_function" [a, b, c]⟩

/-- A context whose instance exports nothing. -/
def ctxEmpty : wasmContext := ⟨0, ⟨fun _ => none⟩⟩

/-- A context whose instance exports everything, always returning the
value 7. -/
def ctxSeven : wasmContext := ⟨0, ⟨fun _ => some (fun _ => Except.ok ⟨7⟩)⟩⟩

/-- Witness for `abi_dispatch_contract` at concrete inputs. -/
theorem abi_dispatch_contract_witness :
    proxy_on_vm_start ctxEmpty 1 2 = (0, some "func proxy_on_vm_start not found") ∧
    proxy_on_new_connection ctxEmpty 3 = some "func proxy_on_new_connection not found" ∧
    proxy_on_vm_start ctxSeven 1 2 = (7, none) :=
  ⟨(abi_dispatch_contract.2.2.1 ctxEmpty 1 2).1 rfl,
   (abi_dispatch_contract.2.2.2.2.2.2.2.2.1 ctxEmpty 3).1 rfl,
   ((abi_dispatch_contract.2.2.1 ctxSeven 1 2).2 (fun _ => Except.ok ⟨7⟩) rfl).2 ⟨7⟩ rfl⟩

end MosnWasm
